import Mathlib

/-!
Verification of the aiohttp users/advertisements service (`main.py`, `models.py`).

The service is embedded shallowly: each request handler becomes a pure Lean
function from the request data and a `Store` (the relational database state)
to an `Except Err` response together with the resulting store.  Python
exceptions that aiohttp translates into structured HTTP errors are the
`badRequest` / `notFound` / `unauthorized` constructors; Python exceptions
that no handler catches (KeyError on a missing header, JSONDecodeError on a
malformed body, a failing commit) become the `uncaught` constructor, which
the framework renders as a generic 500 server error.

Fallible external events that a sequential model cannot produce by itself are
passed as oracle parameters: `commit2Fails` (the second commit of user
registration fails at the database), `userVanishes` (the advertisement FK
target is deleted concurrently between token lookup and commit), the bcrypt
hash function, the generated token UUID and the server clock.
-/

namespace Hw

/-- A JSON value as far as the handlers inspect one: the bodies of this API
only carry strings, numbers and null at the top level of the object. -/
inductive Jval where
  | str : String → Jval
  | num : Nat → Jval
  | null : Jval
deriving DecidableEq

/-- Key lookup in a parsed JSON object (Python `dict` access / `in`). -/
def lookupJ (input : List (String × Jval)) (key : String) : Option Jval :=
  (input.find? (fun p => p.1 = key)).map (fun p => p.2)

/-- pydantic v1 coercion to `str`: strings pass, numbers are stringified,
`None` is rejected for a `str`-typed field. -/
def coerceStr : Jval → Option String
  | .str s => some s
  | .num n => some (toString n)
  | .null => none

/-- Python `str()` of a JSON value, as an f-string would render it. -/
def jvalRender : Jval → String
  | .str s => s
  | .num n => toString n
  | .null => "None"

/-- Outcome classes of a request: the three structured HTTP errors the
handlers raise deliberately, plus `uncaught` for Python exceptions nothing
catches (rendered by aiohttp as a generic 500 server error). -/
inductive Err where
  | badRequest : String → Err
  | notFound : String → Err
  | unauthorized : String → Err
  | uncaught : String → Err
deriving DecidableEq

/-- Whether an error is an HTTP 400 BadRequest. -/
def Err.isBadRequest : Err → Bool
  | .badRequest _ => true
  | _ => false

/-- Whether a handler result is an HTTP 400 BadRequest. -/
def resIsBadRequest {α : Type} : Except Err α → Bool
  | .error e => e.isBadRequest
  | .ok _ => false

/-- Model of `check_len` (main.py): raises HTTPBadRequest when the value is shorter
than the minimum.  Length is Python `len`, the character count. -/
def check_len (value : String) (attr : String) (min_value : Nat) : Except Err Unit :=
  if value.length < min_value then
    .error (.badRequest (attr ++ " is too short, min_lenght = " ++ toString min_value))
  else
    .ok ()

/-- Result of validating one pydantic field: `absent` (optional field not
supplied, excluded from the output dict), `collected` (a field error that
pydantic collects into a `ValidationError`, e.g. a missing required field or
a `None` where `str` is expected), or the accepted value.  A validator that
raises `HTTPBadRequest` (as `check_len` does) escapes pydantic — only
ValueError/TypeError/AssertionError are collected — so it surfaces as an
`Except.error` immediately. -/
inductive FieldRes where
  | absent
  | collected
  | val : String → FieldRes
deriving DecidableEq

/-- Validate one required `str` field, optionally `check_len`-validated. -/
def fieldReq (input : List (String × Jval)) (key attr : String) (minLen : Option Nat) :
    Except Err FieldRes :=
  match lookupJ input key with
  | none => .ok .collected
  | some v =>
    match coerceStr v with
    | none => .ok .collected
    | some s =>
      match minLen with
      | none => .ok (.val s)
      | some m =>
        match check_len s attr m with
        | .error e => .error e
        | .ok _ => .ok (.val s)

/-- Validate one `Optional[str]` field with a `check_len` validator.  An
absent field stays absent; an explicit `null` reaches the validator, where
`len(None)` raises TypeError, which pydantic collects. -/
def fieldOpt (input : List (String × Jval)) (key attr : String) (minLen : Nat) :
    Except Err FieldRes :=
  match lookupJ input key with
  | none => .ok .absent
  | some .null => .ok .collected
  | some v =>
    match coerceStr v with
    | none => .ok .collected
    | some s =>
      match check_len s attr minLen with
      | .error e => .error e
      | .ok _ => .ok (.val s)

/-- Model of `validate(input_data, CreateUser)`: `email: str`, `password: str` with
`check_len(password, 'password', 5)`.  Collected field errors become the
generic HTTPBadRequest message of `validate`. -/
def validateCreateUser (input : List (String × Jval)) : Except Err (String × String) :=
  match fieldReq input "email" "email" none with
  | .error e => .error e
  | .ok fe =>
    match fieldReq input "password" "password" (some 5) with
    | .error e => .error e
    | .ok fp =>
      match fe, fp with
      | .val es, .val ps => .ok (es, ps)
      | _, _ => .error (.badRequest "incorrect input_data!")

/-- Model of `validate(input_data, CreateAdvertisement)`: required `title` (min 8) and
`description` (min 5). -/
def validateCreateAdvertisement (input : List (String × Jval)) :
    Except Err (String × String) :=
  match fieldReq input "title" "title" (some 8) with
  | .error e => .error e
  | .ok ft =>
    match fieldReq input "description" "description" (some 5) with
    | .error e => .error e
    | .ok fd =>
      match ft, fd with
      | .val ts, .val ds => .ok (ts, ds)
      | _, _ => .error (.badRequest "incorrect input_data!")

/-- Value of an optional field in the `dict(exclude_none=True)` output. -/
def FieldRes.toOpt : FieldRes → Option String
  | .val s => some s
  | _ => none

/-- Model of `validate(input_data, UpdateAdvertisement)`: optional `title` (min 8) and
`description` (min 5); absent fields are excluded from the output mapping. -/
def validateUpdateAdvertisement (input : List (String × Jval)) :
    Except Err (Option String × Option String) :=
  match fieldOpt input "title" "title" 8 with
  | .error e => .error e
  | .ok ft =>
    match fieldOpt input "description" "description" 5 with
    | .error e => .error e
    | .ok fd =>
      match ft, fd with
      | .collected, _ => .error (.badRequest "incorrect input_data!")
      | _, .collected => .error (.badRequest "incorrect input_data!")
      | tt, dd => .ok (tt.toOpt, dd.toOpt)

/-- Row of the `users` table (models.py `User`).  `created_at` is the
server-assigned timestamp rendered as a string. -/
structure User where
  id : Nat
  email : String
  password : String
  created_at : String
deriving DecidableEq

/-- Row of the `advertisements` table (models.py `Advertisement`). -/
structure Advertisement where
  id : Nat
  title : String
  description : String
  created_at : String
  user_id : Nat
deriving DecidableEq

/-- Row of the `tokens` table (models.py `Token`); the id is a UUID string. -/
structure Token where
  id : String
  created_at : String
  user_id : Nat
deriving DecidableEq

/-- The relational store: the three tables plus the autoincrement counters
of the two integer primary keys. -/
structure Store where
  users : List User
  advs : List Advertisement
  tokens : List Token
  nextUserId : Nat
  nextAdvId : Nat
deriving DecidableEq

/-- The store of a freshly created database. -/
def emptyStore : Store := ⟨[], [], [], 1, 1⟩

/-- Lookup `session.get(User, id)`. -/
def findUser (s : Store) (i : Nat) : Option User :=
  s.users.find? (fun u => u.id = i)

/-- Lookup `session.get(Advertisement, id)`. -/
def findAdv (s : Store) (i : Nat) : Option Advertisement :=
  s.advs.find? (fun a => a.id = i)

/-- Lookup `session.get(Token, id)`. -/
def findToken (s : Store) (i : String) : Option Token :=
  s.tokens.find? (fun t => t.id = i)

/-- Model of `Advertisement.__repr__` (models.py): `f'<{self.title}>'`. -/
def reprAdvertisement (a : Advertisement) : String :=
  "<" ++ a.title ++ ">"

/-- Python `str()` of a list, which renders every element with `repr`. -/
def pyStrList (xs : List String) : String :=
  "[" ++ String.intercalate ", " xs ++ "]"

/-- The `user.advs` relationship: all advertisements whose `user_id` is the
user's id. -/
def userAdvs (s : Store) (uid : Nat) : List Advertisement :=
  s.advs.filter (fun a => a.user_id = uid)

/-- Model of `check_token_in_headers(advertisement, request)` (main.py): read the
`token` header (an absent header raises an uncaught KeyError), resolve it via
`get_item_by_id` (HTTPNotFound when unknown), then compare owners; a mismatch
raises HTTPUnauthorized. -/
def check_token_in_headers (advertisement : Advertisement) (tokenHeader : Option String)
    (s : Store) : Except Err Bool :=
  match tokenHeader with
  | none => .error (.uncaught "KeyError")
  | some token_in_request =>
    match findToken s token_in_request with
    | none => .error (.notFound "item doesn`t exist")
    | some token_owner =>
      if advertisement.user_id = token_owner.user_id then .ok true
      else .error (.unauthorized "Действие разрешено только владельцу")

/-- Handler `UserView.get`: fetch the user by id (404 if absent) and answer with
id, email, `str(created_at)` and `str(user.advs)` — the Python string
rendering of the advertisement list through `Advertisement.__repr__`. -/
def userViewGet (user_id : Nat) (s : Store) : Except Err (List (String × Jval)) :=
  match findUser s user_id with
  | none => .error (.notFound "item doesn`t exist")
  | some user =>
    .ok [("user_id", .num user.id),
         ("user_email", .str user.email),
         ("created_at", .str user.created_at),
         ("advs", .str (pyStrList ((userAdvs s user.id).map reprAdvertisement)))]

/-- Handler `UserView.post`: parse the JSON body (a malformed body raises an uncaught
JSONDecodeError), validate, hash the password, insert the User and commit
(an IntegrityError from the unique email becomes HTTPBadRequest), then insert
the Token and commit a second time.  The two commits are independent: when
the second one fails, the exception propagates uncaught and the user row —
already committed — stays in the store. -/
def userViewPost (hashpw : String → String) (newTokenId : String)
    (commit2Fails : Bool) (now : String)
    (body : Option (List (String × Jval))) (s : Store) :
    Except Err (List (String × Jval)) × Store :=
  match body with
  | none => (.error (.uncaught "JSONDecodeError"), s)
  | some json_data =>
    match validateCreateUser json_data with
    | .error e => (.error e, s)
    | .ok (email, password) =>
      let hashed := hashpw password
      if s.users.any (fun u => u.email = email) then
        (.error (.badRequest "user is already exists"), s)
      else
        let new_user : User := ⟨s.nextUserId, email, hashed, now⟩
        let s1 : Store := { s with users := s.users ++ [new_user],
                                   nextUserId := s.nextUserId + 1 }
        if commit2Fails then
          (.error (.uncaught "commit failed"), s1)
        else
          let user_token : Token := ⟨newTokenId, now, new_user.id⟩
          let s2 : Store := { s1 with tokens := s1.tokens ++ [user_token] }
          (.ok [("user_created", .str ("user_id " ++ toString new_user.id)),
                ("token", .str newTokenId),
                ("WARNING", .str "save your token for authorization!")], s2)

/-- Handler `AdvertisementView.post`: parse (uncaught JSONDecodeError on malformed
body), validate, read the `token` header (uncaught KeyError when absent),
resolve it (404 when unknown), insert with `user_id` set to the token owner
and commit.  When the commit raises IntegrityError — the owning user vanished
or the token dangles — the except-branch formats `input_data["user_id"]`,
which raises an uncaught KeyError unless the client happened to send a
`user_id` field in the body. -/
def advViewPost (tokenHeader : Option String) (userVanishes : Bool) (now : String)
    (body : Option (List (String × Jval))) (s : Store) :
    Except Err (List (String × Jval)) × Store :=
  match body with
  | none => (.error (.uncaught "JSONDecodeError"), s)
  | some input_data =>
    match validateCreateAdvertisement input_data with
    | .error e => (.error e, s)
    | .ok (title, description) =>
      match tokenHeader with
      | none => (.error (.uncaught "KeyError"), s)
      | some token_in_request =>
        match findToken s token_in_request with
        | none => (.error (.notFound "item doesn`t exist"), s)
        | some token_owner =>
          if userVanishes || (findUser s token_owner.user_id).isNone then
            match lookupJ input_data "user_id" with
            | none => (.error (.uncaught "KeyError"), s)
            | some v =>
              (.error (.badRequest ("user " ++ jvalRender v ++ " doesn`t exist")), s)
          else
            let new_advertisement : Advertisement :=
              ⟨s.nextAdvId, title, description, now, token_owner.user_id⟩
            let s1 : Store := { s with advs := s.advs ++ [new_advertisement],
                                       nextAdvId := s.nextAdvId + 1 }
            (.ok [("success", .str ("advertisement id" ++ toString new_advertisement.id ++
                   " created with title \"" ++ title ++ "\" by user " ++
                   toString token_owner.user_id))], s1)

/-- The `setattr` loop of `AdvertisementView.patch`: apply exactly the fields
present in the validated mapping. -/
def applyUpdate (adv : Advertisement) (t d : Option String) : Advertisement :=
  { adv with title := t.getD adv.title, description := d.getD adv.description }

/-- Replace the advertisement row with the given id. -/
def updateStoreAdv (s : Store) (advId : Nat) (adv2 : Advertisement) : Store :=
  { s with advs := s.advs.map (fun a => if a.id = advId then adv2 else a) }

/-- Handler `AdvertisementView.patch`: parse, reject any body containing `user_id`,
validate, fetch the advertisement (404), check ownership via
`check_token_in_headers`, then apply the present fields and commit. -/
def advViewPatch (advId : Nat) (tokenHeader : Option String)
    (body : Option (List (String × Jval))) (s : Store) :
    Except Err (List (String × Jval)) × Store :=
  match body with
  | none => (.error (.uncaught "JSONDecodeError"), s)
  | some input_data =>
    if (lookupJ input_data "user_id").isSome then
      (.error (.badRequest "Смена владельца объявления невозможна"), s)
    else
      match validateUpdateAdvertisement input_data with
      | .error e => (.error e, s)
      | .ok (t, d) =>
        match findAdv s advId with
        | none => (.error (.notFound "item doesn`t exist"), s)
        | some adv =>
          match check_token_in_headers adv tokenHeader s with
          | .error e => (.error e, s)
          | .ok _ =>
            (.ok [("success", .str ("advertisement id" ++ toString adv.id ++ " updated"))],
             updateStoreAdv s advId (applyUpdate adv t d))

/-- Handler `AdvertisementView.delete`: fetch the advertisement (404), check
ownership, delete the row and commit. -/
def advViewDelete (advId : Nat) (tokenHeader : Option String) (s : Store) :
    Except Err (List (String × Jval)) × Store :=
  match findAdv s advId with
  | none => (.error (.notFound "item doesn`t exist"), s)
  | some adv =>
    match check_token_in_headers adv tokenHeader s with
    | .error e => (.error e, s)
    | .ok _ =>
      (.ok [("status OK", .str ("advertisement id_" ++ toString adv.id ++ " \"" ++
             adv.title ++ "\" deleted"))],
       { s with advs := s.advs.filter (fun a => a.id ≠ adv.id) })

end Hw

namespace Hw

/-! ### Concrete stores used by witnesses and counterexamples -/

/-- Two users; user 2 owns advertisement 1; the token `tA` belongs to user 1. -/
def storeA : Store :=
  ⟨[⟨1, "a", "h", "d"⟩, ⟨2, "b", "h", "d"⟩],
   [⟨1, "OriginalTitle1", "OrigDesc", "d", 2⟩],
   [⟨"tA", "d", 1⟩], 3, 2⟩

/-- One user holding token `tA`, no advertisements. -/
def storeB : Store := ⟨[⟨1, "a", "h", "d"⟩], [], [⟨"tA", "d", 1⟩], 2, 1⟩

/-- One user owning advertisement 1, holding token `tA`. -/
def storeOwn : Store :=
  ⟨[⟨1, "a", "h", "d"⟩], [⟨1, "OriginalTitle1", "OrigDesc", "d", 1⟩], [⟨"tA", "d", 1⟩], 2, 2⟩

/-- User 1 owns the single advertisement, which has id 7. -/
def storeC7 : Store :=
  ⟨[⟨1, "a@x.com", "h", "d1"⟩], [⟨7, "SomeNiceTitle", "desc!", "d2", 1⟩], [], 2, 9⟩

/-- Identical to `storeC7` except the advertisement id is 8. -/
def storeC8 : Store :=
  ⟨[⟨1, "a@x.com", "h", "d1"⟩], [⟨8, "SomeNiceTitle", "desc!", "d2", 1⟩], [], 2, 9⟩

/-! ### Helper lemmas about the validation layer -/

/-- The only error `check_len` produces is the BadRequest with its message. -/
theorem check_len_error {s a : String} {m : Nat} {e : Err}
    (h : check_len s a m = .error e) :
    e = .badRequest (a ++ " is too short, min_lenght = " ++ toString m) := by
  unfold check_len at h
  split at h
  · injection h with h
    exact h.symm
  · exact Except.noConfusion h

/-- A required field with no length validator never raises. -/
theorem fieldReq_no_min_ok (input : List (String × Jval)) (key attr : String) :
    ∃ fr, fieldReq input key attr none = .ok fr := by
  unfold fieldReq
  cases lookupJ input key with
  | none => exact ⟨_, rfl⟩
  | some v => cases v <;> exact ⟨_, rfl⟩

/-- Any error escaping `fieldReq` is a BadRequest (it comes from `check_len`). -/
theorem fieldReq_error_isBadRequest {input : List (String × Jval)} {key attr : String}
    {m : Option Nat} {e : Err} (h : fieldReq input key attr m = .error e) :
    e.isBadRequest = true := by
  unfold fieldReq at h
  split at h
  · exact Except.noConfusion h
  · split at h
    · exact Except.noConfusion h
    · split at h
      · exact Except.noConfusion h
      · split at h
        · rename_i heq
          injection h with h
          rw [← h, check_len_error heq]
          rfl
        · exact Except.noConfusion h

/-- Any error escaping `fieldOpt` is a BadRequest (it comes from `check_len`). -/
theorem fieldOpt_error_isBadRequest {input : List (String × Jval)} {key attr : String}
    {m : Nat} {e : Err} (h : fieldOpt input key attr m = .error e) :
    e.isBadRequest = true := by
  unfold fieldOpt at h
  split at h
  · exact Except.noConfusion h
  · exact Except.noConfusion h
  · split at h
    · exact Except.noConfusion h
    · split at h
      · rename_i heq
        injection h with h
        rw [← h, check_len_error heq]
        rfl
      · exact Except.noConfusion h

end Hw

namespace Hw

/-! ### Claim theorems -/

/-- C1: registration is NOT atomic in the source.  `UserView.post` commits
the User insert first; when the second commit (the Token insert) fails, the
exception propagates uncaught while the already-committed user row survives
in the store, with no token bound to it.  This evaluates the handler at the
failing input, refuting "no User row survives". -/
theorem registration_token_commit_failure_keeps_user (hashpw : String → String) (now : String) :
    userViewPost hashpw "tok-1" true now
      (some [("email", .str "a@x.com"), ("password", .str "abcde")]) emptyStore
    = (.error (.uncaught "commit failed"),
       { users := [⟨1, "a@x.com", hashpw "abcde", now⟩], advs := [], tokens := [],
         nextUserId := 2, nextAdvId := 1 }) := rfl

/-- C3: when the owning user vanishes between token lookup and commit, the
`except IntegrityError` branch of `AdvertisementView.post` formats
`input_data["user_id"]`; the creation body `{title, description}` has no
`user_id` key, so a KeyError escapes and the response is a generic server
error, not the BadRequest/Conflict the spec promises. -/
theorem adv_create_vanished_user_uncaught_keyerror :
    advViewPost (some "tA") true "d"
      (some [("title", Jval.str "Long enough title"), ("description", Jval.str "short")]) storeB
    = (.error (.uncaught "KeyError"), storeB) ∧
    resIsBadRequest (advViewPost (some "tA") true "d"
      (some [("title", Jval.str "Long enough title"), ("description", Jval.str "short")]) storeB).1
    = false := ⟨rfl, rfl⟩

/-- C4 counterexample: a malformed JSON body of `POST /users/` makes
`request.json()` raise an uncaught JSONDecodeError; the response is a
generic server error, not a BadRequest. -/
theorem malformed_json_not_bad_request :
    userViewPost (fun p => p) "t" false "2020" none emptyStore
      = (.error (.uncaught "JSONDecodeError"), emptyStore) ∧
    resIsBadRequest (userViewPost (fun p => p) "t" false "2020" none emptyStore).1 = false :=
  ⟨rfl, rfl⟩

/-- C4 amended: for every malformed body of `POST /users/`, the JSON decode
failure propagates uncaught (a generic server error) and the store is
unchanged. -/
theorem malformed_json_uncaught (hashpw : String → String) (tk : String)
    (c2 : Bool) (now : String) (s : Store) :
    userViewPost hashpw tk c2 now none s = (.error (.uncaught "JSONDecodeError"), s) := rfl

/-- C9 counterexample: `CreateUser` has no non-emptiness check on `email`;
registering with the empty email succeeds and creates a user row whose email
is the empty string. -/
theorem empty_email_user_created :
    userViewPost (fun p => p ++ "#") "tok" false "now"
      (some [("email", Jval.str ""), ("password", Jval.str "abcde")]) emptyStore
    = (.ok [("user_created", Jval.str "user_id 1"), ("token", Jval.str "tok"),
            ("WARNING", Jval.str "save your token for authorization!")],
       ⟨[⟨1, "", "abcde#", "now"⟩], [], [⟨"tok", "now", 1⟩], 2, 1⟩) := rfl

/-- C9 amended: user-creation validation only requires `email` to be present
and string-typed; the empty string passes, so validation succeeds whenever
the password is long enough. -/
theorem createuser_accepts_empty_email (input : List (String × Jval)) (p : String)
    (he : lookupJ input "email" = some (.str ""))
    (hp : lookupJ input "password" = some (.str p))
    (hlen : 5 ≤ p.length) :
    validateCreateUser input = .ok ("", p) := by
  unfold validateCreateUser fieldReq
  rw [he, hp]
  simp only [coerceStr, check_len, if_neg (Nat.not_lt.mpr hlen)]

/-- Witness for C9 amended at a concrete input. -/
theorem createuser_accepts_empty_email_witness :
    validateCreateUser [("email", Jval.str ""), ("password", Jval.str "abcde")]
      = .ok ("", "abcde") :=
  createuser_accepts_empty_email _ "abcde" rfl rfl (by decide)

/-- C6: every PATCH body containing a `user_id` key is rejected with the
BadRequest of `AdvertisementView.patch` before any validation, token access,
or mutation — for every token header (absent, invalid or valid) and every
store. -/
theorem patch_rejects_user_id_field (advId : Nat) (th : Option String)
    (input : List (String × Jval)) (s : Store) (v : Jval)
    (h : lookupJ input "user_id" = some v) :
    advViewPatch advId th (some input) s
      = (.error (.badRequest "Смена владельца объявления невозможна"), s) := by
  simp only [advViewPatch, h, Option.isSome_some, if_true]

/-- Witness for C6 at a concrete input: token header absent, store empty. -/
theorem patch_rejects_user_id_field_witness :
    advViewPatch 1 none (some [("user_id", Jval.num 5)]) emptyStore
      = (.error (.badRequest "Смена владельца объявления невозможна"), emptyStore) :=
  patch_rejects_user_id_field 1 none _ emptyStore (Jval.num 5) rfl

/-- C5 counterexample: the `advs` field of `GET /users/{id}/` is
`str(user.advs)`, and `Advertisement.__repr__` renders the title, so the
response shows `[<SomeNiceTitle>]` — which contains no digit of the
advertisement id 7 — and two stores differing only in the advertisement's id
produce identical responses: the field cannot be the list of identifiers. -/
theorem user_get_advs_shows_titles_not_ids :
    userViewGet 1 storeC7
      = .ok [("user_id", Jval.num 1), ("user_email", Jval.str "a@x.com"),
             ("created_at", Jval.str "d1"), ("advs", Jval.str "[<SomeNiceTitle>]")] ∧
    "[<SomeNiceTitle>]".toList.contains '7' = false ∧
    storeC7 ≠ storeC8 ∧
    userViewGet 1 storeC7 = userViewGet 1 storeC8 :=
  ⟨rfl, rfl, by decide, rfl⟩

/-- C5 amended: for every existing user id, `GET /users/{id}/` returns the
user's id, email and created_at, and in `advs` the Python string rendering of
the owned advertisements through `Advertisement.__repr__` (their titles, not
their identifiers). -/
theorem user_get_returns_fields (s : Store) (uid : Nat) (user : User)
    (h : findUser s uid = some user) :
    userViewGet uid s
      = .ok [("user_id", .num user.id), ("user_email", .str user.email),
             ("created_at", .str user.created_at),
             ("advs", .str (pyStrList ((userAdvs s user.id).map reprAdvertisement)))] := by
  unfold userViewGet
  rw [h]

/-- Witness for C5 amended at a concrete store. -/
theorem user_get_returns_fields_witness :
    userViewGet 1 storeC7
      = .ok [("user_id", Jval.num 1), ("user_email", Jval.str "a@x.com"),
             ("created_at", Jval.str "d1"),
             ("advs", Jval.str (pyStrList ((userAdvs storeC7 1).map reprAdvertisement)))] :=
  user_get_returns_fields storeC7 1 ⟨1, "a@x.com", "h", "d1"⟩ rfl

end Hw

namespace Hw

/-- C10 counterexample: a DELETE for a nonexistent advertisement that lacks
the `token` header reaches `get_item_by_id` before any header read and
answers with the structured NotFound error — so a token-less request can
produce one of BadRequest/NotFound/Unauthorized, contrary to the claim. -/
theorem tokenless_delete_can_not_found :
    advViewDelete 1 none emptyStore
      = (.error (.notFound "item doesn`t exist"), emptyStore) := rfl

/-- C10 amended: for every advertisement create, update or delete request
lacking the `token` header that passes the stages preceding the header read
(create: body parses and validates; update: body parses, has no `user_id`,
validates, and the advertisement exists; delete: the advertisement exists),
the unconditional `request.headers['token']` access raises an uncaught
KeyError: the response is none of BadRequest, NotFound or Unauthorized, and
the store is unchanged. -/
theorem missing_token_header_uncaught :
    (∀ (uv : Bool) (now : String) (input : List (String × Jval))
       (td : String × String) (s : Store),
      validateCreateAdvertisement input = .ok td →
      advViewPost none uv now (some input) s = (.error (.uncaught "KeyError"), s)) ∧
    (∀ (advId : Nat) (input : List (String × Jval))
       (vd : Option String × Option String) (s : Store) (adv : Advertisement),
      lookupJ input "user_id" = none →
      validateUpdateAdvertisement input = .ok vd →
      findAdv s advId = some adv →
      advViewPatch advId none (some input) s = (.error (.uncaught "KeyError"), s)) ∧
    (∀ (advId : Nat) (s : Store) (adv : Advertisement),
      findAdv s advId = some adv →
      advViewDelete advId none s = (.error (.uncaught "KeyError"), s)) := by
  refine ⟨?_, ?_, ?_⟩
  · intro uv now input td s hval
    obtain ⟨t, d⟩ := td
    simp only [advViewPost, hval]
  · intro advId input vd s adv huid hval hadv
    obtain ⟨t, d⟩ := vd
    simp only [advViewPatch, huid, Option.isSome_none, Bool.false_eq_true, if_false, hval,
      hadv, check_token_in_headers]
  · intro advId s adv hadv
    simp only [advViewDelete, hadv, check_token_in_headers]

/-- Witness for C10 amended: all three parts applied at concrete requests. -/
theorem missing_token_header_uncaught_witness :
    advViewPost none false "d"
      (some [("title", Jval.str "Long enough title"), ("description", Jval.str "short")])
      emptyStore = (.error (.uncaught "KeyError"), emptyStore) ∧
    advViewPatch 1 none (some [("title", Jval.str "LongEnoughTitle")]) storeA
      = (.error (.uncaught "KeyError"), storeA) ∧
    advViewDelete 1 none storeA = (.error (.uncaught "KeyError"), storeA) :=
  ⟨missing_token_header_uncaught.1 false "d" _ ("Long enough title", "short") emptyStore rfl,
   missing_token_header_uncaught.2.1 1 _ (some "LongEnoughTitle", none) storeA
     ⟨1, "OriginalTitle1", "OrigDesc", "d", 2⟩ rfl rfl rfl,
   missing_token_header_uncaught.2.2 1 storeA ⟨1, "OriginalTitle1", "OrigDesc", "d", 2⟩ rfl⟩

/-- C2 counterexample: in `storeA` the token `tA` resolves to user 1 while
advertisement 1 belongs to user 2 — the claim's precondition holds — yet a
PATCH whose title is too short fails with BadRequest (validation runs before
the ownership check), not with Unauthorized. -/
theorem mismatched_token_invalid_body_not_unauthorized :
    findToken storeA "tA" = some ⟨"tA", "d", 1⟩ ∧
    findAdv storeA 1 = some ⟨1, "OriginalTitle1", "OrigDesc", "d", 2⟩ ∧
    (1 : Nat) ≠ 2 ∧
    advViewPatch 1 (some "tA") (some [("title", Jval.str "tiny")]) storeA
      = (.error (.badRequest "title is too short, min_lenght = 8"), storeA) :=
  ⟨rfl, rfl, by decide, rfl⟩

/-- C2 amended: for every update request that passes the stages preceding the
ownership check (body parses, has no `user_id`, validates) and for every
delete request, if the advertisement exists and the presented token resolves
to a user different from the advertisement's owner, the handler fails with
Unauthorized and the store — hence every field of the advertisement — is
unchanged. -/
theorem owner_mismatch_unauthorized :
    (∀ (advId : Nat) (tid : String) (input : List (String × Jval))
       (vd : Option String × Option String) (s : Store) (adv : Advertisement) (tok : Token),
      lookupJ input "user_id" = none →
      validateUpdateAdvertisement input = .ok vd →
      findAdv s advId = some adv →
      findToken s tid = some tok →
      adv.user_id ≠ tok.user_id →
      advViewPatch advId (some tid) (some input) s
        = (.error (.unauthorized "Действие разрешено только владельцу"), s)) ∧
    (∀ (advId : Nat) (tid : String) (s : Store) (adv : Advertisement) (tok : Token),
      findAdv s advId = some adv →
      findToken s tid = some tok →
      adv.user_id ≠ tok.user_id →
      advViewDelete advId (some tid) s
        = (.error (.unauthorized "Действие разрешено только владельцу"), s)) := by
  constructor
  · intro advId tid input vd s adv tok huid hval hadv htok hne
    obtain ⟨t, d⟩ := vd
    simp only [advViewPatch, huid, Option.isSome_none, Bool.false_eq_true, if_false, hval,
      hadv, check_token_in_headers, htok, if_neg hne]
  · intro advId tid s adv tok hadv htok hne
    simp only [advViewDelete, hadv, check_token_in_headers, htok, if_neg hne]

/-- Witness for C2 amended: both parts applied in `storeA`, where token `tA`
belongs to user 1 and advertisement 1 to user 2. -/
theorem owner_mismatch_unauthorized_witness :
    advViewPatch 1 (some "tA") (some [("title", Jval.str "LongEnoughTitle")]) storeA
      = (.error (.unauthorized "Действие разрешено только владельцу"), storeA) ∧
    advViewDelete 1 (some "tA") storeA
      = (.error (.unauthorized "Действие разрешено только владельцу"), storeA) :=
  ⟨owner_mismatch_unauthorized.1 1 "tA" _ (some "LongEnoughTitle", none) storeA
     ⟨1, "OriginalTitle1", "OrigDesc", "d", 2⟩ ⟨"tA", "d", 1⟩ rfl rfl rfl rfl (by decide),
   owner_mismatch_unauthorized.2 1 "tA" storeA
     ⟨1, "OriginalTitle1", "OrigDesc", "d", 2⟩ ⟨"tA", "d", 1⟩ rfl rfl (by decide)⟩

end Hw

namespace Hw

/-- A too-short password fails `CreateUser` validation with the eager
HTTPBadRequest of `check_len` (the email field has no validator and can
never raise first). -/
theorem validateCreateUser_password_short (input : List (String × Jval)) (p : String)
    (hp : lookupJ input "password" = some (.str p)) (hlen : p.length < 5) :
    validateCreateUser input
      = .error (.badRequest "password is too short, min_lenght = 5") := by
  obtain ⟨fr, hfr⟩ := fieldReq_no_min_ok input "email" "email"
  unfold validateCreateUser
  rw [hfr]
  unfold fieldReq
  rw [hp]
  simp only [coerceStr, check_len, if_pos hlen]
  rfl

/-- A too-short title fails `CreateAdvertisement` validation eagerly. -/
theorem validateCreateAdv_title_short (input : List (String × Jval)) (t : String)
    (ht : lookupJ input "title" = some (.str t)) (hlen : t.length < 8) :
    validateCreateAdvertisement input
      = .error (.badRequest "title is too short, min_lenght = 8") := by
  unfold validateCreateAdvertisement
  unfold fieldReq
  rw [ht]
  simp only [coerceStr, check_len, if_pos hlen]
  rfl

/-- A too-short description fails `CreateAdvertisement` validation with some
BadRequest (whose message depends on whether the title also fails). -/
theorem validateCreateAdv_desc_short (input : List (String × Jval)) (d : String)
    (hd : lookupJ input "description" = some (.str d)) (hlen : d.length < 5) :
    ∃ e, validateCreateAdvertisement input = .error e ∧ e.isBadRequest = true := by
  unfold validateCreateAdvertisement
  cases hft : fieldReq input "title" "title" (some 8) with
  | error e => exact ⟨e, rfl, fieldReq_error_isBadRequest hft⟩
  | ok ft =>
    have hfd : fieldReq input "description" "description" (some 5)
        = .error (.badRequest "description is too short, min_lenght = 5") := by
      unfold fieldReq
      rw [hd]
      simp only [coerceStr, check_len, if_pos hlen]
      rfl
    rw [hfd]
    exact ⟨_, rfl, rfl⟩

/-- A too-short title fails `UpdateAdvertisement` validation eagerly. -/
theorem validateUpdate_title_short (input : List (String × Jval)) (t : String)
    (ht : lookupJ input "title" = some (.str t)) (hlen : t.length < 8) :
    validateUpdateAdvertisement input
      = .error (.badRequest "title is too short, min_lenght = 8") := by
  unfold validateUpdateAdvertisement
  unfold fieldOpt
  rw [ht]
  simp only [coerceStr, check_len, if_pos hlen]
  rfl

/-- A too-short description fails `UpdateAdvertisement` validation with some
BadRequest. -/
theorem validateUpdate_desc_short (input : List (String × Jval)) (d : String)
    (hd : lookupJ input "description" = some (.str d)) (hlen : d.length < 5) :
    ∃ e, validateUpdateAdvertisement input = .error e ∧ e.isBadRequest = true := by
  unfold validateUpdateAdvertisement
  cases hft : fieldOpt input "title" "title" 8 with
  | error e => exact ⟨e, rfl, fieldOpt_error_isBadRequest hft⟩
  | ok ft =>
    have hfd : fieldOpt input "description" "description" 5
        = .error (.badRequest "description is too short, min_lenght = 5") := by
      unfold fieldOpt
      rw [hd]
      simp only [coerceStr, check_len, if_pos hlen]
      rfl
    rw [hfd]
    exact ⟨_, rfl, rfl⟩

/-- C7: a password shorter than 5 characters (user creation), a title shorter
than 8, or a description shorter than 5 (advertisement creation and update)
each make the request fail with a BadRequest, and the store is unchanged — no
row is created or mutated.  Length is `String.length`, the character count. -/
theorem length_validation_bad_request :
    (∀ (hashpw : String → String) (tk : String) (c2 : Bool) (now : String)
       (input : List (String × Jval)) (p : String) (s : Store),
      lookupJ input "password" = some (.str p) → p.length < 5 →
      resIsBadRequest (userViewPost hashpw tk c2 now (some input) s).1 = true ∧
      (userViewPost hashpw tk c2 now (some input) s).2 = s) ∧
    (∀ (th : Option String) (uv : Bool) (now : String)
       (input : List (String × Jval)) (t : String) (s : Store),
      lookupJ input "title" = some (.str t) → t.length < 8 →
      resIsBadRequest (advViewPost th uv now (some input) s).1 = true ∧
      (advViewPost th uv now (some input) s).2 = s) ∧
    (∀ (th : Option String) (uv : Bool) (now : String)
       (input : List (String × Jval)) (d : String) (s : Store),
      lookupJ input "description" = some (.str d) → d.length < 5 →
      resIsBadRequest (advViewPost th uv now (some input) s).1 = true ∧
      (advViewPost th uv now (some input) s).2 = s) ∧
    (∀ (advId : Nat) (th : Option String)
       (input : List (String × Jval)) (t : String) (s : Store),
      lookupJ input "title" = some (.str t) → t.length < 8 →
      resIsBadRequest (advViewPatch advId th (some input) s).1 = true ∧
      (advViewPatch advId th (some input) s).2 = s) ∧
    (∀ (advId : Nat) (th : Option String)
       (input : List (String × Jval)) (d : String) (s : Store),
      lookupJ input "description" = some (.str d) → d.length < 5 →
      resIsBadRequest (advViewPatch advId th (some input) s).1 = true ∧
      (advViewPatch advId th (some input) s).2 = s) := by
  refine ⟨?_, ?_, ?_, ?_, ?_⟩
  · intro hashpw tk c2 now input p s hp hlen
    have hv := validateCreateUser_password_short input p hp hlen
    simp only [userViewPost, hv, resIsBadRequest, Err.isBadRequest]
    exact ⟨trivial, trivial⟩
  · intro th uv now input t s ht hlen
    have hv := validateCreateAdv_title_short input t ht hlen
    simp only [advViewPost, hv, resIsBadRequest, Err.isBadRequest]
    exact ⟨trivial, trivial⟩
  · intro th uv now input d s hd hlen
    obtain ⟨e, hv, hbr⟩ := validateCreateAdv_desc_short input d hd hlen
    simp only [advViewPost, hv, resIsBadRequest]
    exact ⟨hbr, trivial⟩
  · intro advId th input t s ht hlen
    cases hu : lookupJ input "user_id" with
    | some v =>
      simp only [advViewPatch, hu, Option.isSome_some, if_true, resIsBadRequest,
        Err.isBadRequest]
      exact ⟨trivial, trivial⟩
    | none =>
      have hv := validateUpdate_title_short input t ht hlen
      simp only [advViewPatch, hu, Option.isSome_none, Bool.false_eq_true, if_false, hv,
        resIsBadRequest, Err.isBadRequest]
      exact ⟨trivial, trivial⟩
  · intro advId th input d s hd hlen
    cases hu : lookupJ input "user_id" with
    | some v =>
      simp only [advViewPatch, hu, Option.isSome_some, if_true, resIsBadRequest,
        Err.isBadRequest]
      exact ⟨trivial, trivial⟩
    | none =>
      obtain ⟨e, hv, hbr⟩ := validateUpdate_desc_short input d hd hlen
      simp only [advViewPatch, hu, Option.isSome_none, Bool.false_eq_true, if_false, hv,
        resIsBadRequest]
      exact ⟨hbr, trivial⟩

/-- Witness for C7: all five parts applied at concrete short inputs. -/
theorem length_validation_bad_request_witness :
    (resIsBadRequest (userViewPost (fun p => p) "t" false "d"
      (some [("email", Jval.str "a@x.com"), ("password", Jval.str "abcd")]) emptyStore).1
      = true ∧
     (userViewPost (fun p => p) "t" false "d"
      (some [("email", Jval.str "a@x.com"), ("password", Jval.str "abcd")]) emptyStore).2
      = emptyStore) ∧
    (resIsBadRequest (advViewPost (some "tA") false "d"
      (some [("title", Jval.str "short"), ("description", Jval.str "desc!")]) storeB).1
      = true ∧
     (advViewPost (some "tA") false "d"
      (some [("title", Jval.str "short"), ("description", Jval.str "desc!")]) storeB).2
      = storeB) ∧
    (resIsBadRequest (advViewPost (some "tA") false "d"
      (some [("title", Jval.str "Long enough title"), ("description", Jval.str "dsc")]) storeB).1
      = true ∧
     (advViewPost (some "tA") false "d"
      (some [("title", Jval.str "Long enough title"), ("description", Jval.str "dsc")]) storeB).2
      = storeB) ∧
    (resIsBadRequest (advViewPatch 1 (some "tA")
      (some [("title", Jval.str "short")]) storeOwn).1 = true ∧
     (advViewPatch 1 (some "tA") (some [("title", Jval.str "short")]) storeOwn).2
      = storeOwn) ∧
    (resIsBadRequest (advViewPatch 1 (some "tA")
      (some [("description", Jval.str "dsc")]) storeOwn).1 = true ∧
     (advViewPatch 1 (some "tA") (some [("description", Jval.str "dsc")]) storeOwn).2
      = storeOwn) :=
  ⟨length_validation_bad_request.1 (fun p => p) "t" false "d" _ "abcd" emptyStore rfl
     (by decide),
   length_validation_bad_request.2.1 (some "tA") false "d" _ "short" storeB rfl (by decide),
   length_validation_bad_request.2.2.1 (some "tA") false "d" _ "dsc" storeB rfl (by decide),
   length_validation_bad_request.2.2.2.1 1 (some "tA") _ "short" storeOwn rfl (by decide),
   length_validation_bad_request.2.2.2.2 1 (some "tA") _ "dsc" storeOwn rfl (by decide)⟩

end Hw

namespace Hw

/-- A successful `findAdv` returns a row carrying the requested id. -/
theorem findAdv_id {s : Store} {advId : Nat} {adv : Advertisement}
    (h : findAdv s advId = some adv) : adv.id = advId := by
  unfold findAdv at h
  have := List.find?_some h
  exact of_decide_eq_true this

/-- Replacing the found row by one with the same id makes `find?` return the
replacement. -/
theorem find?_map_update (l : List Advertisement) (advId : Nat)
    (adv adv2 : Advertisement)
    (h : l.find? (fun a => a.id = advId) = some adv) (hid : adv2.id = advId) :
    (l.map (fun a => if a.id = advId then adv2 else a)).find? (fun a => a.id = advId)
      = some adv2 := by
  induction l with
  | nil => simp at h
  | cons x xs ih =>
    by_cases hx : x.id = advId
    · simp only [List.map_cons, if_pos hx]
      exact List.find?_cons_of_pos _ (decide_eq_true hid)
    · rw [List.find?_cons_of_neg _ (by simpa using hx)] at h
      simp only [List.map_cons, if_neg hx]
      rw [List.find?_cons_of_neg _ (by simpa using hx)]
      exact ih h

/-- An optional field absent from the input validates to `absent`. -/
theorem fieldOpt_ok_of_none {input : List (String × Jval)} {key attr : String}
    {m : Nat} {ft : FieldRes} (hft : fieldOpt input key attr m = .ok ft)
    (h : lookupJ input key = none) : ft = .absent := by
  unfold fieldOpt at hft
  rw [h] at hft
  injection hft with hft
  exact hft.symm

/-- An optional string field present in the input validates to its value. -/
theorem fieldOpt_ok_of_str {input : List (String × Jval)} {key attr : String}
    {m : Nat} {ft : FieldRes} {ts : String}
    (hft : fieldOpt input key attr m = .ok ft)
    (h : lookupJ input key = some (.str ts)) : ft = .val ts := by
  unfold fieldOpt at hft
  rw [h] at hft
  simp only [coerceStr] at hft
  split at hft
  · exact Except.noConfusion hft
  · injection hft with hft
    exact hft.symm

/-- Successful `UpdateAdvertisement` validation excludes absent fields from
the output mapping and keeps present string fields verbatim. -/
theorem validateUpdate_ok_fields {input : List (String × Jval)}
    {t d : Option String}
    (hv : validateUpdateAdvertisement input = .ok (t, d)) :
    (lookupJ input "title" = none → t = none) ∧
    (lookupJ input "description" = none → d = none) ∧
    (∀ ts, lookupJ input "title" = some (.str ts) → t = some ts) ∧
    (∀ ds, lookupJ input "description" = some (.str ds) → d = some ds) := by
  unfold validateUpdateAdvertisement at hv
  split at hv
  · exact Except.noConfusion hv
  · rename_i ft hft
    split at hv
    · exact Except.noConfusion hv
    · rename_i fd hfd
      split at hv
      · exact Except.noConfusion hv
      · exact Except.noConfusion hv
      · rename_i hnc1 hnc2
        injection hv with hv
        have ht2 : FieldRes.toOpt ft = t := congrArg Prod.fst hv
        have hd2 : FieldRes.toOpt fd = d := congrArg Prod.snd hv
        refine ⟨?_, ?_, ?_, ?_⟩
        · intro hnone
          rw [← ht2, fieldOpt_ok_of_none hft hnone]
          rfl
        · intro hnone
          rw [← hd2, fieldOpt_ok_of_none hfd hnone]
          rfl
        · intro ts hts
          rw [← ht2, fieldOpt_ok_of_str hft hts]
          rfl
        · intro ds hds
          rw [← hd2, fieldOpt_ok_of_str hfd hds]
          rfl

end Hw

namespace Hw

/-- C8: a successful partial update applies exactly the fields present in the
input.  The stored row afterwards keeps its id, owner and creation time; a
field absent from the input keeps its previous value (never defaulted to
null/empty), and a field present as a string takes exactly the given value. -/
theorem patch_partial_update (advId : Nat) (th : Option String)
    (input : List (String × Jval)) (s : Store) (r : List (String × Jval)) (s2 : Store)
    (h : advViewPatch advId th (some input) s = (.ok r, s2)) :
    ∃ adv adv2 : Advertisement,
      findAdv s advId = some adv ∧ findAdv s2 advId = some adv2 ∧
      adv2.id = adv.id ∧ adv2.user_id = adv.user_id ∧ adv2.created_at = adv.created_at ∧
      (lookupJ input "title" = none → adv2.title = adv.title) ∧
      (lookupJ input "description" = none → adv2.description = adv.description) ∧
      (∀ ts, lookupJ input "title" = some (.str ts) → adv2.title = ts) ∧
      (∀ ds, lookupJ input "description" = some (.str ds) → adv2.description = ds) := by
  simp only [advViewPatch] at h
  split at h
  · exact absurd (congrArg Prod.fst h) (by simp)
  · split at h
    · exact absurd (congrArg Prod.fst h) (by simp)
    · rename_i t d hval
      split at h
      · exact absurd (congrArg Prod.fst h) (by simp)
      · rename_i adv hadv
        split at h
        · exact absurd (congrArg Prod.fst h) (by simp)
        · have hs2 : s2 = updateStoreAdv s advId (applyUpdate adv t d) :=
            (congrArg Prod.snd h).symm
          obtain ⟨hTnone, hDnone, hTstr, hDstr⟩ := validateUpdate_ok_fields hval
          have hida : adv.id = advId := findAdv_id hadv
          have hid : (applyUpdate adv t d).id = advId := hida
          refine ⟨adv, applyUpdate adv t d, hadv, ?_, rfl, rfl, rfl, ?_, ?_, ?_, ?_⟩
          · rw [hs2]
            unfold findAdv at hadv ⊢
            unfold updateStoreAdv
            exact find?_map_update s.advs advId adv (applyUpdate adv t d) hadv hid
          · intro hnone
            unfold applyUpdate
            rw [hTnone hnone]
            rfl
          · intro hnone
            unfold applyUpdate
            rw [hDnone hnone]
            rfl
          · intro ts hts
            unfold applyUpdate
            rw [hTstr ts hts]
            rfl
          · intro ds hds
            unfold applyUpdate
            rw [hDstr ds hds]
            rfl

/-- Witness for C8: a concrete successful PATCH of only the title in
`storeOwn`; the conclusion is obtained by applying `patch_partial_update` to
the concrete run. -/
theorem patch_partial_update_witness :
    ∃ adv adv2 : Advertisement,
      findAdv storeOwn 1 = some adv ∧
      findAdv ⟨[⟨1, "a", "h", "d"⟩], [⟨1, "UpdatedTitle!!", "OrigDesc", "d", 1⟩],
               [⟨"tA", "d", 1⟩], 2, 2⟩ 1 = some adv2 ∧
      adv2.id = adv.id ∧ adv2.user_id = adv.user_id ∧ adv2.created_at = adv.created_at ∧
      (lookupJ [("title", Jval.str "UpdatedTitle!!")] "title" = none →
        adv2.title = adv.title) ∧
      (lookupJ [("title", Jval.str "UpdatedTitle!!")] "description" = none →
        adv2.description = adv.description) ∧
      (∀ ts, lookupJ [("title", Jval.str "UpdatedTitle!!")] "title" = some (.str ts) →
        adv2.title = ts) ∧
      (∀ ds, lookupJ [("title", Jval.str "UpdatedTitle!!")] "description" = some (.str ds) →
        adv2.description = ds) :=
  patch_partial_update 1 (some "tA") [("title", Jval.str "UpdatedTitle!!")] storeOwn
    [("success", Jval.str "advertisement id1 updated")]
    ⟨[⟨1, "a", "h", "d"⟩], [⟨1, "UpdatedTitle!!", "OrigDesc", "d", 1⟩],
     [⟨"tA", "d", 1⟩], 2, 2⟩ rfl

end Hw
